import Mathlib

/-!
Verification development for the portfolio-risk-mc repository.

The repository ships four Python files whose configuration tables are
complete data, while the pipeline method bodies are stubs.  The
configuration tables below are embedded verbatim from the source (all
decimal constants become exact rationals).  Pipeline behaviour that the
source does not implement is modelled from the specification; every such
definition carries a doc comment starting with `Modelled from the spec:`.
The file is organized with all definitions first, then the theorems.
-/

namespace PortfolioRiskMC

/-- Row of `AdvancedRegimeEngine.REGIME_PARAMETERS` in
src/advanced_regime_engine.py: prior probability, volatility threshold,
correlation threshold and risk-scaling factor (description omitted as
non-numeric). -/
structure RegimeParams3 where
  probability : ℚ
  volatility_threshold : ℚ
  correlation_threshold : ℚ
  risk_scaling : ℚ
  deriving DecidableEq, Repr

/-- Row of `AdvancedRegimeEngine.REGIME_PARAMETERS` in
src/regime_detector.py (the 4-state scheme): prior probability,
volatility threshold and correlation threshold (no risk-scaling field in
this scheme). -/
structure RegimeParams4 where
  probability : ℚ
  vol_threshold : ℚ
  correlation_threshold : ℚ
  deriving DecidableEq, Repr

/-- Error taxonomy of the pipeline, from the specification's
error-handling design: a configuration error is raised only at
construction; the insufficient-history, insufficient-data, copula-fit and
non-convergence errors are the mid-pipeline failures. -/
inductive RiskError where
  | configurationError
  | insufficientHistory
  | insufficientData
  | copulaFitError
  | nonConvergence
  deriving DecidableEq, Repr

/-- State produced by a detection run: current regime label, confidence
score, per-regime posterior probabilities, and the number of periods the
current regime has been held. -/
structure RegimeState where
  regime : String
  confidence : ℚ
  posteriors : List (String × ℚ)
  periodsInRegime : ℕ
  deriving DecidableEq, Repr

namespace AdvancedRegimeEngine

/-- Table `REGIME_PARAMETERS` from src/advanced_regime_engine.py,
lines 8-30: the 3-state calm/stress/crisis scheme. -/
def REGIME_PARAMETERS : List (String × RegimeParams3) :=
  [ ("calm",   ⟨55/100, 10/100, 3/10, 1⟩),
    ("stress", ⟨30/100, 20/100, 6/10, 7/10⟩),
    ("crisis", ⟨15/100, 35/100, 8/10, 4/10⟩) ]

/-- Value `DETECTION_CONFIG.estimation_windows` from
src/advanced_regime_engine.py, line 33. -/
def estimation_windows : List ℕ := [21, 63, 252]

/-- Value `DETECTION_CONFIG.minimum_history` from
src/advanced_regime_engine.py, line 34. -/
def minimum_history : ℕ := 252

/-- Value `DETECTION_CONFIG.decay_factor` from
src/advanced_regime_engine.py, line 35 (0.94). -/
def decay_factor : ℚ := 94/100

/-- Value `DETECTION_CONFIG.confidence_threshold` from
src/advanced_regime_engine.py, line 36 (0.75). -/
def confidence_threshold : ℚ := 75/100

/-- Value `DETECTION_CONFIG.regime_persistence` from
src/advanced_regime_engine.py, line 37 (minimum days in regime). -/
def regime_persistence : ℕ := 5

/-- Modelled from the spec: the high-confidence override margin of the
persistence rule ("exceeds `confidence_threshold` by a wide margin") has
no configured value in src; it is fixed here at 0.10, so the override
fires when candidate confidence exceeds 0.85. -/
def override_margin : ℚ := 1/10

/-- Step of the exponentially decay-weighted accumulation: the
accumulator is (weighted sum of squares, sum of weights, current weight);
the observation at lag k contributes weight `decay_factor ^ k`. -/
def detStep (a : ℚ × ℚ × ℚ) (x : ℚ) : ℚ × ℚ × ℚ :=
  (a.1 + a.2.2 * x ^ 2, a.2.1 + a.2.2, a.2.2 * decay_factor)

/-- Modelled from the spec: decay-weighted mean square of a series given
most-recent-first, the weight for lag k proportional to `decay_factor ^ k`
(spec step 1 of regime detection: realized volatility per window,
exponentially decay-weighted). -/
def decayWeightedMeanSq (xs : List ℚ) : ℚ :=
  let acc := xs.foldl detStep ((0:ℚ), (0:ℚ), (1:ℚ))
  if acc.2.1 = 0 then 0 else acc.1 / acc.2.1

/-- Modelled from the spec: annualized realized variance over one
lookback window (252 trading periods per year; variance rather than
volatility so the model stays inside ℚ — regimes are compared against
squared thresholds). -/
def windowVar (w : ℕ) (returns : List ℚ) : ℚ :=
  252 * decayWeightedMeanSq (returns.take w)

/-- Modelled from the spec: the multi-window volatility statistic — the
average of the annualized variances over the configured
`estimation_windows`. -/
def multiWindowVar (returns : List ℚ) : ℚ :=
  ((estimation_windows.map (fun w => windowVar w returns)).sum) /
    (estimation_windows.length : ℚ)

/-- Modelled from the spec: score of one regime as a function of the
distance between the observed variance and the regime's squared
volatility threshold (closer means higher score; the squared distance
keeps the model polynomial and the 1e-6 offset keeps the score finite at
an exact hit). -/
def closeness (v2 t2 : ℚ) : ℚ := 1 / (1/1000000 + (v2 - t2) ^ 2)

/-- Modelled from the spec: per-regime scores — the prior probability
acting as a Bayesian base rate multiplying the threshold-distance score
(spec step 2). -/
def regimeScores (returns : List ℚ) : List (String × ℚ) :=
  REGIME_PARAMETERS.map (fun r =>
    (r.1, r.2.probability *
      closeness (multiWindowVar returns) (r.2.volatility_threshold ^ 2)))

/-- Modelled from the spec: normalization of scores to a posterior
probability distribution (spec step 2). -/
def normalizeScores (scores : List (String × ℚ)) : List (String × ℚ) :=
  let t := (scores.map (fun s => s.2)).sum
  if t = 0 then scores else scores.map (fun s => (s.1, s.2 / t))

/-- Modelled from the spec: arg-max selection of the raw candidate
regime (spec step 3); returns the label together with its posterior, the
candidate's confidence. -/
def argmaxScore : List (String × ℚ) → String × ℚ
  | [] => ("calm", 0)
  | s :: rest => rest.foldl (fun b x => if b.2 < x.2 then x else b) s

/-- Modelled from the spec: transition smoothing (spec step 5) — blend
the new posteriors with the previous state's posteriors, the new value at
lag 0 weighted 1 and the previous at lag 1 weighted `decay_factor`. -/
def smoothPosteriors (prev : Option RegimeState) (posts : List (String × ℚ)) :
    List (String × ℚ) :=
  match prev with
  | none => posts
  | some p => posts.map (fun s =>
      (s.1, (s.2 + decay_factor * ((p.posteriors.filter
        (fun q => q.1 = s.1)).map (fun q => q.2)).sum) / (1 + decay_factor)))

/-- Modelled from the spec: the persistence rule (spec step 4) — the raw
candidate replaces the previous state's regime only if (a) the previous
state has held its regime for at least `regime_persistence` periods, or
(b) the candidate's confidence exceeds `confidence_threshold` by
`override_margin`. -/
def applyPersistence (prev : Option RegimeState) (cand : String) (conf : ℚ)
    (posts : List (String × ℚ)) : RegimeState :=
  match prev with
  | none => ⟨cand, conf, posts, 1⟩
  | some p =>
    if cand = p.regime then ⟨p.regime, conf, posts, p.periodsInRegime + 1⟩
    else if regime_persistence ≤ p.periodsInRegime ∨
        confidence_threshold + override_margin < conf then
      ⟨cand, conf, posts, 1⟩
    else ⟨p.regime, p.confidence, posts, p.periodsInRegime + 1⟩

/-- Modelled from the spec: detect_regime (the src body is a stub) —
guard on `minimum_history`, then multi-window scoring, normalization
against priors, arg-max candidate, persistence rule and transition
smoothing.  Returns are given most-recent-first. -/
def detect_regime (returns : List ℚ) (prev : Option RegimeState) :
    Except RiskError RegimeState :=
  if returns.length < minimum_history then .error .insufficientHistory
  else
    let posts := normalizeScores (regimeScores returns)
    let cand := argmaxScore posts
    .ok (applyPersistence prev cand.1 cand.2 (smoothPosteriors prev posts))

/-- Total decay weight of n observations at lags 1..n, relative to a
current weight of 1. -/
def geomWeight (n : ℕ) : ℚ := (1 - decay_factor ^ n) / (1 - decay_factor)

end AdvancedRegimeEngine

namespace RegimeDetector

/-- Table `REGIME_PARAMETERS` from src/regime_detector.py, lines 8-33:
the 4-state low_volatility/trending/high_volatility/regime_shift
scheme. -/
def REGIME_PARAMETERS : List (String × RegimeParams4) :=
  [ ("low_volatility",  ⟨30/100, 10/100, 3/10⟩),
    ("trending",        ⟨45/100, 15/100, 5/10⟩),
    ("high_volatility", ⟨20/100, 25/100, 7/10⟩),
    ("regime_shift",    ⟨5/100,  35/100, 8/10⟩) ]

/-- Value `DETECTION_CONFIG.lookback_windows` from
src/regime_detector.py, line 36. -/
def lookback_windows : List ℕ := [21, 63, 252]

end RegimeDetector

namespace AdvancedRiskEngine

/-- Values of `RISK_LIMITS.portfolio` from src/advanced_risk_engine.py,
lines 11-16. -/
def max_drawdown : ℚ := 15/100
def var_limit : ℚ := 12/100
def expected_shortfall : ℚ := 20/100
def concentration_limit : ℚ := 25/100

/-- Values of `RISK_LIMITS.volatility` from src/advanced_risk_engine.py,
lines 17-26. -/
def vol_target : ℚ := 12/100
def vol_bands : ℚ × ℚ := (8/100, 15/100)
def scaling_limits : ℚ × ℚ := (5/10, 2)
def regime_adjustments : List (String × ℚ) :=
  [("low_vol", 12/10), ("high_vol", 8/10), ("crisis", 5/10)]

/-- Values of `RISK_LIMITS.position` from src/advanced_risk_engine.py,
lines 27-32. -/
def max_single_name : ℚ := 5/100
def min_single_name : ℚ := 1/100
def max_sector : ℚ := 25/100
def liquidity_threshold : ℚ := 15/100

/-- Modelled from the spec: regime-conditional volatility scaling — the
target volatility is multiplied by the current regime's risk_scaling
factor and the scaled target clamped to `scaling_limits`. -/
def scaledTargetVol (risk_scaling : ℚ) : ℚ :=
  min (max (vol_target * risk_scaling) scaling_limits.1) scaling_limits.2

/-- Row of the 3-state scheme for the crisis regime. -/
def crisisParams : RegimeParams3 :=
  (AdvancedRegimeEngine.REGIME_PARAMETERS.lookup "crisis").getD ⟨0, 0, 0, 0⟩

/-- Portfolio position: asset identifier and current weight. -/
structure Position where
  asset : String
  weight : ℚ
  deriving DecidableEq, Repr

/-- Sum of all position weights. -/
def totalWeight (ps : List Position) : ℚ := (ps.map (fun p => p.weight)).sum

/-- Total weight in excess of the single-name cap across all
positions. -/
def excessWeight (ps : List Position) : ℚ :=
  (ps.map (fun p => max (p.weight - max_single_name) 0)).sum

/-- Total weight of the positions at or below the single-name cap. -/
def restWeight (ps : List Position) : ℚ :=
  ((ps.filter (fun p => p.weight ≤ max_single_name)).map (fun p => p.weight)).sum

/-- Modelled from the spec: calculate_position_adjustments (the src body
is a stub and its declared signature carries no data arguments) — with no
portfolio-level breach, every position above `max_single_name` is clipped
to exactly the cap and the remaining positions are scaled proportionally
so the total weight is preserved; under a portfolio-level breach all
weights are scaled down uniformly by the de-risking factor
limit/actual. -/
def calculate_position_adjustments (portfolioBreach : Bool) (deriskFactor : ℚ)
    (ps : List Position) : List Position :=
  if portfolioBreach then ps.map (fun p => ⟨p.asset, p.weight * deriskFactor⟩)
  else
    ps.map (fun p =>
      if max_single_name < p.weight then ⟨p.asset, max_single_name⟩
      else if restWeight ps = 0 then p
      else ⟨p.asset, p.weight * (1 + excessWeight ps / restWeight ps)⟩)

/-- Portfolio with one position at 10%, double the single-name cap. -/
def demoPositions : List Position :=
  [⟨"A", 1/10⟩, ⟨"B", 2/100⟩, ⟨"C", 3/100⟩]

end AdvancedRiskEngine

namespace CopulaGARCHEngine

/-- Keys of `COPULA_TYPES` from src/copula_garch.py, lines 12-32. -/
def COPULA_TYPES : List String := ["gaussian", "student_t", "clayton", "gumbel"]

/-- Keys of `GARCH_SPECIFICATIONS` from src/copula_garch.py,
lines 34-50. -/
def GARCH_TYPES : List String := ["normal", "student", "skewed"]

/-- Fitted copula: family name and its scalar parameter. -/
structure CopulaModel where
  family : String
  parameter : ℚ
  deriving DecidableEq, Repr

/-- Fitted GARCH(1,1) marginal: innovation distribution, recursion
coefficients and last conditional variance. -/
structure MarginalModel where
  distribution : String
  omega : ℚ
  alpha : ℚ
  beta : ℚ
  lastVar : ℚ
  deriving DecidableEq, Repr

/-- Family-specific valid parameter domain, from the parameter_range
entries of `COPULA_TYPES` in src (clayton strictly positive, gumbel at
least 1) and, for the elliptical families, a correlation in [-1, 1]. -/
def validParameter (family : String) (t : ℚ) : Bool :=
  if family = "clayton" then decide (0 < t)
  else if family = "gumbel" then decide (1 ≤ t)
  else decide (-1 ≤ t ∧ t ≤ 1)

/-- Net concordance count of all pairs of bivariate observations. -/
def concordance : List (ℚ × ℚ) → ℚ
  | [] => 0
  | a :: t => (t.map (fun b =>
      if 0 < (a.1 - b.1) * (a.2 - b.2) then (1:ℚ)
      else if (a.1 - b.1) * (a.2 - b.2) < 0 then -1 else 0)).sum + concordance t

/-- Kendall rank-correlation of paired residuals. -/
def kendallTau (xs : List (ℚ × ℚ)) : ℚ :=
  if xs.length ≤ 1 then 0
  else concordance xs / ((xs.length : ℚ) * ((xs.length : ℚ) - 1) / 2)

/-- Clayton parameter implied by a Kendall tau. -/
def claytonCandidate (tau : ℚ) : ℚ := 2 * tau / (1 - tau)

/-- Gumbel parameter implied by a Kendall tau. -/
def gumbelCandidate (tau : ℚ) : ℚ := 1 / (1 - tau)

/-- Modelled from the spec: candidate parameter produced by the solver
(the spec's non-goals leave the solver free; modelled by Kendall-tau
inversion, a standard estimator for these families). -/
def copulaCandidate (residuals : List (ℚ × ℚ)) (family : String) : ℚ :=
  if family = "clayton" then claytonCandidate (kendallTau residuals)
  else if family = "gumbel" then gumbelCandidate (kendallTau residuals)
  else kendallTau residuals

/-- Modelled from the spec: estimate_copula (the src body is a stub) —
the candidate parameter is validated against the family's domain; a
candidate outside the domain means the likelihood has no interior maximum
there and the fit fails with the copula-fit error rather than returning
an out-of-domain parameter. -/
def estimate_copula (residuals : List (ℚ × ℚ)) (copula_type : String) :
    Except RiskError CopulaModel :=
  if validParameter copula_type (copulaCandidate residuals copula_type) then
    .ok ⟨copula_type, copulaCandidate residuals copula_type⟩
  else .error .copulaFitError

/-- Modelled from the spec: fit_marginals (the src body is a stub) —
fails with the insufficient-data error below 30 observations, otherwise
fits a variance-targeting GARCH(1,1) whose fixed coefficients satisfy
stationarity; a stationarity violation would surface as the
non-convergence error. -/
def fit_marginals (returns : List ℚ) (garch_type : String) :
    Except RiskError MarginalModel :=
  if returns.length < 30 then .error .insufficientData
  else
    let v := (returns.map (fun x => x ^ 2)).sum / (returns.length : ℚ)
    if (5:ℚ)/100 + 9/10 < 1 then
      .ok ⟨garch_type, v * (1 - 5/100 - 9/10), 5/100, 9/10, v⟩
    else .error .nonConvergence

/-- Concordant-majority residual pairs: the fit succeeds for both
Archimedean families. -/
def concRes : List (ℚ × ℚ) := [(0, 0), (1, 1), (2, 1/2)]

/-- Fully discordant residual pairs: tau is -1, both Archimedean
candidates fall outside their domains. -/
def discRes : List (ℚ × ℚ) := [(0, 1), (1, 0)]

/-- Python parameter of a method signature: its name and whether the
declaration gives it a default value. -/
structure PyParam where
  name : String
  hasDefault : Bool
  deriving DecidableEq, Repr

/-- Declared parameters of simulate_scenarios in src/copula_garch.py,
lines 69-75 (self omitted): n_scenarios with default 10000 and horizon
with default 10. -/
def simulate_scenarios_params : List PyParam :=
  [⟨"n_scenarios", true⟩, ⟨"horizon", true⟩]

/-- Deterministic linear-congruential generator step. -/
def lcgNext (s : ℕ) : ℕ := (1103515245 * s + 12345) % 2147483648

/-- Uniform variate in [0, 1) derived from a generator state. -/
def lcgUniform (s : ℕ) : ℚ := (s % 2147483648 : ℕ) / (2147483648 : ℚ)

/-- GARCH(1,1) conditional-variance update from the simulated return. -/
def garchNextVar (m : MarginalModel) (var ret : ℚ) : ℚ :=
  m.omega + m.alpha * ret ^ 2 + m.beta * var

/-- Modelled from the spec: one scenario path of pairwise returns —
dependent uniforms blended through the copula parameter, returns driven
by the conditional variance, and the variance state propagated
path-dependently period by period. -/
def simulatePath (cop : CopulaModel) (m1 m2 : MarginalModel) :
    ℕ → ℕ → ℚ → ℚ → List (ℚ × ℚ)
  | 0, _, _, _ => []
  | k+1, s, v1, v2 =>
    let s1 := lcgNext s
    let s2 := lcgNext s1
    let u1 := lcgUniform s1
    let u2 := cop.parameter * u1 + (1 - cop.parameter) * lcgUniform s2
    let r1 := (2 * u1 - 1) * v1
    let r2 := (2 * u2 - 1) * v2
    (r1, r2) :: simulatePath cop m1 m2 k s2
      (garchNextVar m1 v1 r1) (garchNextVar m2 v2 r2)

/-- Modelled from the spec: simulate_scenarios as a pure function of the
fitted copula and marginal models, the scenario count, the horizon and an
explicit seed; scenarios are mutually independent streams, periods within
a scenario sequentially dependent. -/
def simulate_scenarios_model (cop : CopulaModel) (m1 m2 : MarginalModel)
    (n_scenarios horizon seed : ℕ) : List (List (ℚ × ℚ)) :=
  (List.range n_scenarios).map (fun i =>
    simulatePath cop m1 m2 horizon (lcgNext (seed + i)) m1.lastVar m2.lastVar)

end CopulaGARCHEngine

/-- Full engine configuration as supplied to construction. -/
structure EngineConfig where
  regimes : List (String × RegimeParams3)
  copula_type : String
  garch_type : String
  deriving DecidableEq, Repr

/-- Modelled from the spec: priors across regimes must sum to 1 within
1e-9. -/
def priorsValid (regimes : List (String × RegimeParams3)) : Bool :=
  decide (|((regimes.map (fun r => r.2.probability)).sum) - 1| ≤ 1/1000000000)

/-- Modelled from the spec: regime thresholds must be strictly increasing
from calmer to more stressed regimes. -/
def thresholdsOrdered : List (String × RegimeParams3) → Bool
  | [] => true
  | [_] => true
  | a :: b :: t =>
    decide (a.2.volatility_threshold < b.2.volatility_threshold ∧
      a.2.correlation_threshold < b.2.correlation_threshold) &&
      thresholdsOrdered (b :: t)

namespace AdvancedRiskEngine

/-- Modelled from the spec: _validate_configuration (the src body is a
stub) — priors summing to 1, threshold ordering, and known copula/GARCH
family names, checked before any data is processed. -/
def _validate_configuration (cfg : EngineConfig) : Except RiskError Unit :=
  if priorsValid cfg.regimes && thresholdsOrdered cfg.regimes &&
      CopulaGARCHEngine.COPULA_TYPES.contains cfg.copula_type &&
      CopulaGARCHEngine.GARCH_TYPES.contains cfg.garch_type then .ok ()
  else .error .configurationError

/-- Modelled from the spec: construction runs validation first
(__post_init__) and yields an engine only for a valid configuration. -/
def mkAdvancedRiskEngine (cfg : EngineConfig) : Except RiskError EngineConfig :=
  match _validate_configuration cfg with
  | .ok _ => .ok cfg
  | .error e => .error e

end AdvancedRiskEngine

/-- Configuration whose priors sum to 0.8: construction must reject
it. -/
def badConfig : EngineConfig :=
  ⟨[("calm", ⟨5/10, 10/100, 3/10, 1⟩), ("stress", ⟨3/10, 20/100, 6/10, 7/10⟩)],
    "gaussian", "normal"⟩

/-- Sum of the prior probabilities of the 3-state scheme. -/
def priorSum3 : ℚ :=
  (AdvancedRegimeEngine.REGIME_PARAMETERS.map (fun r => r.2.probability)).sum

/-- Sum of the prior probabilities of the 4-state scheme. -/
def priorSum4 : ℚ :=
  (RegimeDetector.REGIME_PARAMETERS.map (fun r => r.2.probability)).sum

open AdvancedRegimeEngine in
/-- Otherwise-calm 300-period series (zero returns, realized volatility
0) with a single one-period spike of 4.3% at the most recent period,
given most-recent-first. -/
def spikeSeries : List ℚ := (43/1000) :: List.replicate 299 0

/-- Previous detection state: calm, held for 300 periods, well past the
`regime_persistence` minimum. -/
def prevCalm : RegimeState :=
  ⟨"calm", 9/10, [("calm", 9/10), ("stress", 1/20), ("crisis", 1/20)], 300⟩

open AdvancedRegimeEngine in
/-- Posterior distribution the detector computes on the spike series. -/
def spikePosts : List (String × ℚ) := normalizeScores (regimeScores spikeSeries)

open AdvancedRegimeEngine in
/-- State the detector returns on the spike series with the calm
previous state. -/
def spikeState : RegimeState :=
  applyPersistence (some prevCalm) (argmaxScore spikePosts).1
    (argmaxScore spikePosts).2 (smoothPosteriors (some prevCalm) spikePosts)

namespace AdvancedRegimeEngine

/-- Closed form for the decay-weighted accumulation over an all-zero
stretch of the series. -/
theorem foldl_detStep_replicate_zero (n : ℕ) :
    ∀ s sw w : ℚ, List.foldl detStep (s, sw, w) (List.replicate n 0) =
      (s, sw + w * geomWeight n, w * decay_factor ^ n) := by
  induction n with
  | zero => intro s sw w; simp [geomWeight]
  | succ k ih =>
    intro s sw w
    rw [List.replicate_succ, List.foldl_cons]
    simp only [detStep]
    rw [ih]
    refine Prod.ext ?_ (Prod.ext ?_ ?_)
    · norm_num
    · show sw + w + w * decay_factor * geomWeight k = sw + w * geomWeight (k+1)
      unfold geomWeight decay_factor
      field_simp
      ring
    · show w * decay_factor * decay_factor ^ k = w * decay_factor ^ (k+1)
      ring

theorem geomWeight_nonneg (m : ℕ) : 0 ≤ geomWeight m := by
  unfold geomWeight decay_factor
  apply div_nonneg
  · have h : (94/100:ℚ) ^ m ≤ 1 := pow_le_one₀ (by norm_num) (by norm_num)
    linarith
  · norm_num

theorem spikeDenom_pos (m : ℕ) : (0:ℚ) < 1 + decay_factor * geomWeight m := by
  have h := geomWeight_nonneg m
  have h2 : (0:ℚ) ≤ decay_factor * geomWeight m := by
    apply mul_nonneg _ h
    norm_num [decay_factor]
  linarith

/-- Decay-weighted mean square of a series that is a single spike
followed by zeros, truncated to a window of m+1 observations. -/
theorem dwMeanSq_spike (x : ℚ) (n m : ℕ) (h : m ≤ n) :
    decayWeightedMeanSq ((x :: List.replicate n 0).take (m+1)) =
      x ^ 2 / (1 + decay_factor * geomWeight m) := by
  rw [List.take_succ_cons, List.take_replicate, Nat.min_eq_left h]
  unfold decayWeightedMeanSq
  rw [List.foldl_cons]
  simp only [detStep]
  norm_num
  rw [foldl_detStep_replicate_zero]
  have hpos := spikeDenom_pos m
  rw [if_neg hpos.ne']

/-- Reduction of the persistence rule at a present previous state. -/
theorem applyPersistence_some (p : RegimeState) (cand : String) (conf : ℚ)
    (posts : List (String × ℚ)) :
    applyPersistence (some p) cand conf posts =
      if cand = p.regime then ⟨p.regime, conf, posts, p.periodsInRegime + 1⟩
      else if regime_persistence ≤ p.periodsInRegime ∨
          confidence_threshold + override_margin < conf then ⟨cand, conf, posts, 1⟩
      else ⟨p.regime, p.confidence, posts, p.periodsInRegime + 1⟩ := rfl

theorem windowVar_spike (m : ℕ) (h : m ≤ 299) :
    windowVar (m+1) spikeSeries =
      252 * ((43/1000:ℚ) ^ 2 / (1 + decay_factor * geomWeight m)) := by
  unfold windowVar spikeSeries
  rw [dwMeanSq_spike _ _ _ h]

/-- Multi-window variance statistic of the spike series in closed
form. -/
theorem multiWindowVar_spike :
    multiWindowVar spikeSeries =
      (252 * ((43/1000:ℚ) ^ 2 / (1 + decay_factor * geomWeight 20)) +
       (252 * ((43/1000:ℚ) ^ 2 / (1 + decay_factor * geomWeight 62)) +
        (252 * ((43/1000:ℚ) ^ 2 / (1 + decay_factor * geomWeight 251)) + 0))) / 3 := by
  unfold multiWindowVar estimation_windows
  have h21 := windowVar_spike 20 (by norm_num)
  have h63 := windowVar_spike 62 (by norm_num)
  have h252 := windowVar_spike 251 (by norm_num)
  norm_num at h21 h63 h252
  simp only [List.map_cons, List.map_nil, List.sum_cons, List.sum_nil,
    List.length_cons, List.length_nil]
  rw [h21, h63, h252]
  norm_num

end AdvancedRegimeEngine

theorem spikeSeries_length : spikeSeries.length = 300 := by
  rw [spikeSeries, List.length_cons, List.length_replicate]

open AdvancedRegimeEngine in
theorem spikeDetect_ok :
    detect_regime spikeSeries (some prevCalm) = .ok spikeState := by
  unfold detect_regime spikeState spikePosts
  rw [if_neg (by rw [spikeSeries_length]; norm_num [minimum_history])]

open AdvancedRegimeEngine in
/-- The spike drives the arg-max candidate to stress, with confidence
about 0.78 — below the 0.85 high-confidence override level. -/
theorem spike_cand_eval :
    (argmaxScore spikePosts).1 = "stress" ∧
    (argmaxScore spikePosts).2 ≤ 17/20 := by
  have hV := multiWindowVar_spike
  unfold spikePosts regimeScores REGIME_PARAMETERS
  simp only [List.map_cons, List.map_nil]
  rw [hV]
  norm_num [closeness, normalizeScores, argmaxScore, geomWeight, decay_factor]

open AdvancedRegimeEngine in
theorem spikeState_facts :
    spikeState.regime = "stress" ∧
    spikeState.confidence ≤ confidence_threshold + override_margin := by
  have h := spike_cand_eval
  unfold spikeState
  rw [applyPersistence_some]
  rw [if_neg (by rw [h.1]; simp [prevCalm])]
  rw [if_pos (Or.inl (by norm_num [prevCalm, regime_persistence]))]
  refine ⟨h.1, ?_⟩
  have h2 := h.2
  norm_num [confidence_threshold, override_margin]
  exact h2

namespace AdvancedRiskEngine

/-- Reduction of the adjustment step when no portfolio-level breach is
present. -/
theorem calc_adjust_false (d : ℚ) (ps : List Position) :
    calculate_position_adjustments false d ps =
      ps.map (fun p =>
        if max_single_name < p.weight then ⟨p.asset, max_single_name⟩
        else if restWeight ps = 0 then p
        else ⟨p.asset, p.weight * (1 + excessWeight ps / restWeight ps)⟩) := rfl

/-- Summing the adjusted weights for fixed scaling data e, r. -/
theorem adjusted_sum (e r : ℚ) (hr : r ≠ 0) (l : List Position) :
    totalWeight (l.map (fun p =>
      if max_single_name < p.weight then (⟨p.asset, max_single_name⟩ : Position)
      else if r = 0 then p
      else ⟨p.asset, p.weight * (1 + e / r)⟩)) =
    totalWeight l - excessWeight l + (e / r) * restWeight l := by
  induction l with
  | nil => simp [totalWeight, excessWeight, restWeight]
  | cons p t ih =>
    simp only [totalWeight, excessWeight, restWeight, List.map_cons,
      List.sum_cons, List.filter_cons, decide_eq_true_eq] at ih ⊢
    by_cases h : max_single_name < p.weight
    · have hnot : ¬ (p.weight ≤ max_single_name) := not_le.mpr h
      rw [if_pos h, max_eq_left (by linarith), if_neg hnot]
      simp only [List.map_cons, List.sum_cons]
      rw [ih]
      ring
    · have hle : p.weight ≤ max_single_name := not_lt.mp h
      rw [if_neg h, if_neg hr, max_eq_right (by linarith), if_pos hle]
      simp only [List.map_cons, List.sum_cons]
      rw [ih]
      ring

/-- The no-breach adjustment pass preserves the total weight. -/
theorem adjust_preserves_total (ps : List Position) (hr : 0 < restWeight ps) :
    totalWeight (calculate_position_adjustments false 1 ps) = totalWeight ps := by
  rw [calc_adjust_false, adjusted_sum (excessWeight ps) (restWeight ps) hr.ne' ps,
    div_mul_cancel₀ _ hr.ne']
  ring

end AdvancedRiskEngine

/-- Claim C1: in both shipped regime schemes (3-state calm/stress/crisis
and 4-state low_volatility/trending/high_volatility/regime_shift) the
prior probabilities over the regimes sum to 1.0 within 1e-9. -/
theorem claim_C1_priors_sum_to_one :
    |priorSum3 - 1| ≤ 1/1000000000 ∧ |priorSum4 - 1| ≤ 1/1000000000 := by
  constructor <;> norm_num [priorSum3, priorSum4,
    AdvancedRegimeEngine.REGIME_PARAMETERS, RegimeDetector.REGIME_PARAMETERS]

/-- Claim C2 (counterexample to the claim as stated): the declared
signature of simulate_scenarios has no parameter named seed at all, let
alone a required one — its only parameters are n_scenarios and horizon,
both optional with defaults. -/
theorem claim_C2_counterexample :
    (CopulaGARCHEngine.simulate_scenarios_params.any
      (fun p => p.name == "seed" && !p.hasDefault)) = false := by
  rfl

/-- Claim C2 (amended): the scenario simulation signature exposes no
seed parameter (only optional n_scenarios and horizon); modelling the
simulator from the spec as a pure function of an explicit seed and the
fitted models, two runs with the same seed, the same fitted copula and
marginal models, the same n_scenarios and the same horizon return
identical scenario sets. -/
theorem claim_C2_seed_determinism (cop1 cop2 : CopulaGARCHEngine.CopulaModel)
    (m1 m2 m1a m2a : CopulaGARCHEngine.MarginalModel)
    (n h seed1 seed2 : ℕ)
    (hseed : seed1 = seed2) (hcop : cop1 = cop2)
    (hm1 : m1 = m1a) (hm2 : m2 = m2a) :
    (CopulaGARCHEngine.simulate_scenarios_params.any
      (fun p => p.name == "seed" && !p.hasDefault)) = false ∧
    CopulaGARCHEngine.simulate_scenarios_model cop1 m1 m2 n h seed1 =
      CopulaGARCHEngine.simulate_scenarios_model cop2 m1a m2a n h seed2 := by
  subst hseed hcop hm1 hm2
  exact ⟨rfl, rfl⟩

/-- Witness for the amended C2 at a concrete seed, fitted models,
scenario count and horizon. -/
theorem claim_C2_seed_determinism_witness :
    (CopulaGARCHEngine.simulate_scenarios_params.any
      (fun p => p.name == "seed" && !p.hasDefault)) = false ∧
    CopulaGARCHEngine.simulate_scenarios_model ⟨"gaussian", 1/2⟩
        ⟨"normal", 1/100, 5/100, 9/10, 4/100⟩
        ⟨"normal", 2/100, 5/100, 9/10, 9/100⟩ 3 2 42 =
      CopulaGARCHEngine.simulate_scenarios_model ⟨"gaussian", 1/2⟩
        ⟨"normal", 1/100, 5/100, 9/10, 4/100⟩
        ⟨"normal", 2/100, 5/100, 9/10, 9/100⟩ 3 2 42 :=
  claim_C2_seed_determinism ⟨"gaussian", 1/2⟩ ⟨"gaussian", 1/2⟩
    ⟨"normal", 1/100, 5/100, 9/10, 4/100⟩ ⟨"normal", 2/100, 5/100, 9/10, 9/100⟩
    ⟨"normal", 1/100, 5/100, 9/10, 4/100⟩ ⟨"normal", 2/100, 5/100, 9/10, 9/100⟩
    3 2 42 42 rfl rfl rfl rfl

/-- Claim C3: every invalid configuration (priors not summing to 1,
threshold ordering violated, or an unknown copula/GARCH family name) is
rejected at construction with the configuration error, before any data is
processed; the mid-pipeline operations (regime detection, marginal fit,
copula estimation) never return the configuration error — and the
simulation and risk-engine operations are total functions that return
data, never errors. -/
theorem claim_C3_fail_fast (cfg : EngineConfig) :
    ((priorsValid cfg.regimes = false ∨ thresholdsOrdered cfg.regimes = false ∨
      CopulaGARCHEngine.COPULA_TYPES.contains cfg.copula_type = false ∨
      CopulaGARCHEngine.GARCH_TYPES.contains cfg.garch_type = false) →
      AdvancedRiskEngine.mkAdvancedRiskEngine cfg = .error .configurationError) ∧
    (∀ returns prev, AdvancedRegimeEngine.detect_regime returns prev ≠
      .error .configurationError) ∧
    (∀ res fam, CopulaGARCHEngine.estimate_copula res fam ≠
      .error .configurationError) ∧
    (∀ rets gt, CopulaGARCHEngine.fit_marginals rets gt ≠
      .error .configurationError) := by
  refine ⟨?_, ?_, ?_, ?_⟩
  · intro hbad
    unfold AdvancedRiskEngine.mkAdvancedRiskEngine
      AdvancedRiskEngine._validate_configuration
    have hfalse : (priorsValid cfg.regimes && thresholdsOrdered cfg.regimes &&
        CopulaGARCHEngine.COPULA_TYPES.contains cfg.copula_type &&
        CopulaGARCHEngine.GARCH_TYPES.contains cfg.garch_type) = false := by
      rcases hbad with h | h | h | h <;> simp_all
    rw [hfalse]
    rfl
  · intro returns prev
    unfold AdvancedRegimeEngine.detect_regime
    split
    · simp
    · simp
  · intro res fam
    unfold CopulaGARCHEngine.estimate_copula
    split
    · simp
    · simp
  · intro rets gt
    unfold CopulaGARCHEngine.fit_marginals
    split
    · simp
    · split
      · simp
      · simp

/-- Witness for C3: the priors-sum-0.8 configuration is rejected at
construction, and a concrete detection call returns an error other than
the configuration error. -/
theorem claim_C3_fail_fast_witness :
    AdvancedRiskEngine.mkAdvancedRiskEngine badConfig =
      .error .configurationError ∧
    AdvancedRegimeEngine.detect_regime [] none ≠
      .error .configurationError ∧
    CopulaGARCHEngine.estimate_copula [] "clayton" ≠
      .error .configurationError :=
  ⟨(claim_C3_fail_fast badConfig).1
      (Or.inl (by norm_num [priorsValid, badConfig, abs_le])),
   (claim_C3_fail_fast badConfig).2.1 [] none,
   (claim_C3_fail_fast badConfig).2.2.1 [] "clayton"⟩

/-- Claim C4 (counterexample to the claim as stated): on a 300-period
otherwise-calm series with a single one-period 4.3% spike, with a
previous state that has held calm for 300 periods, the detector flips the
regime from calm to stress even though the candidate confidence (about
0.78) does not exceed the high-confidence override level
`confidence_threshold + override_margin` (0.85): clause (a) of the
persistence rule (previous regime held at least `regime_persistence`
periods) already licenses the flip. -/
theorem claim_C4_counterexample :
    prevCalm.regime = "calm" ∧ 300 ≤ prevCalm.periodsInRegime ∧
    spikeState.regime = "stress" ∧
    spikeState.confidence ≤ AdvancedRegimeEngine.confidence_threshold +
      AdvancedRegimeEngine.override_margin :=
  ⟨rfl, le_refl 300, spikeState_facts.1, spikeState_facts.2⟩

/-- Claim C4 (amended): for every detection run with a previous regime
state, the arg-max candidate replaces the previous state's regime only
if the previous state has held its regime for at least
`regime_persistence` periods (5) or the candidate's confidence exceeds
`confidence_threshold` (0.75) by the override margin; a spike series can
therefore flip the regime away from calm without the margin being
exceeded whenever the calm state has already persisted for at least 5
periods, and the no-flip guarantee holds only when neither disjunct
does. -/
theorem claim_C4_persistence_rule (returns : List ℚ) (p st : RegimeState)
    (hdet : AdvancedRegimeEngine.detect_regime returns (some p) = .ok st)
    (hflip : st.regime ≠ p.regime) :
    AdvancedRegimeEngine.regime_persistence ≤ p.periodsInRegime ∨
      AdvancedRegimeEngine.confidence_threshold +
        AdvancedRegimeEngine.override_margin < st.confidence := by
  unfold AdvancedRegimeEngine.detect_regime at hdet
  split at hdet
  · exact absurd hdet (by simp)
  · rw [Except.ok.injEq] at hdet
    subst hdet
    rw [AdvancedRegimeEngine.applyPersistence_some] at hflip ⊢
    by_cases h1 : (AdvancedRegimeEngine.argmaxScore
        (AdvancedRegimeEngine.normalizeScores
          (AdvancedRegimeEngine.regimeScores returns))).1 = p.regime
    · rw [if_pos h1] at hflip
      simp at hflip
    · rw [if_neg h1] at hflip ⊢
      by_cases h2 : AdvancedRegimeEngine.regime_persistence ≤ p.periodsInRegime ∨
          AdvancedRegimeEngine.confidence_threshold +
            AdvancedRegimeEngine.override_margin <
            (AdvancedRegimeEngine.argmaxScore
              (AdvancedRegimeEngine.normalizeScores
                (AdvancedRegimeEngine.regimeScores returns))).2
      · rw [if_pos h2]
        simpa using h2
      · rw [if_neg h2] at hflip
        simp at hflip

/-- Witness for the amended C4: the spike-series run instantiates the
persistence rule at a concrete detection run that flips the regime. -/
theorem claim_C4_persistence_rule_witness :
    AdvancedRegimeEngine.regime_persistence ≤ prevCalm.periodsInRegime ∨
      AdvancedRegimeEngine.confidence_threshold +
        AdvancedRegimeEngine.override_margin < spikeState.confidence :=
  claim_C4_persistence_rule spikeSeries prevCalm spikeState spikeDetect_ok
    (by rw [spikeState_facts.1]; simp [prevCalm])

open AdvancedRiskEngine in
/-- Claim C5: when no portfolio-level breach is present, a position whose
weight exceeds max_single_name (0.05) is adjusted down to exactly the cap
(not below it), and the remaining weights are re-normalized
proportionally so the sum of all adjusted weights equals the sum of all
pre-adjustment weights. -/
theorem claim_C5_single_name_adjustment (ps : List Position) (i : ℕ)
    (hi : i < ps.length)
    (hbr : max_single_name < (ps.get ⟨i, hi⟩).weight)
    (hr : 0 < restWeight ps) :
    (calculate_position_adjustments false 1 ps)[i]? =
      some ⟨(ps.get ⟨i, hi⟩).asset, max_single_name⟩ ∧
    totalWeight (calculate_position_adjustments false 1 ps) = totalWeight ps := by
  refine ⟨?_, adjust_preserves_total ps hr⟩
  rw [calc_adjust_false, List.getElem?_map, List.getElem?_eq_getElem hi]
  simp only [Option.map_some', List.get_eq_getElem]
  rw [if_pos (by simpa using hbr)]

open AdvancedRiskEngine in
/-- Witness for C5: the 10% position of the demo portfolio is clipped to
exactly 5% and the total weight (15%) is preserved. -/
theorem claim_C5_single_name_adjustment_witness :
    (calculate_position_adjustments false 1 demoPositions)[0]? =
      some ⟨"A", max_single_name⟩ ∧
    totalWeight (calculate_position_adjustments false 1 demoPositions) =
      totalWeight demoPositions :=
  claim_C5_single_name_adjustment demoPositions 0
    (by norm_num [demoPositions])
    (by norm_num [demoPositions, max_single_name])
    (by norm_num [demoPositions, restWeight, max_single_name])

open AdvancedRiskEngine in
/-- Claim C6: the crisis regime's risk_scaling factor in the shipped
3-state table is 0.4, which lies in the range 0.4 to 0.5, and the
regime-scaled volatility target is the clamp of target times factor to
the scaling_limits bounds — for crisis, 0.12 times 0.4 falls below the
lower bound, so the scaled target is clamped to scaling_limits' lower
bound 0.5. -/
theorem claim_C6_crisis_scaling :
    crisisParams.risk_scaling = 2/5 ∧
    (2/5 ≤ crisisParams.risk_scaling ∧ crisisParams.risk_scaling ≤ 1/2) ∧
    scaledTargetVol crisisParams.risk_scaling = scaling_limits.1 := by
  have h : crisisParams = ⟨15/100, 35/100, 8/10, 4/10⟩ := rfl
  rw [h]
  norm_num [scaledTargetVol, vol_target, scaling_limits, min_def, max_def]

/-- Claim C7: regime detection on a series shorter than `minimum_history`
(252) fails with the insufficient-history error and returns no partial
result, and on a series of at least 252 periods it never raises that
error. -/
theorem claim_C7_minimum_history_guard (returns : List ℚ)
    (prev : Option RegimeState) :
    (returns.length < AdvancedRegimeEngine.minimum_history →
      AdvancedRegimeEngine.detect_regime returns prev =
        .error .insufficientHistory) ∧
    (AdvancedRegimeEngine.minimum_history ≤ returns.length →
      AdvancedRegimeEngine.detect_regime returns prev ≠
        .error .insufficientHistory) := by
  constructor
  · intro h
    simp [AdvancedRegimeEngine.detect_regime, h]
  · intro h
    simp [AdvancedRegimeEngine.detect_regime, Nat.not_lt.mpr h]

/-- Witness for C7: a 100-period series fails with the history error and
a 252-period series does not. -/
theorem claim_C7_minimum_history_guard_witness :
    AdvancedRegimeEngine.detect_regime (List.replicate 100 0) none =
      .error .insufficientHistory ∧
    AdvancedRegimeEngine.detect_regime (List.replicate 252 0) none ≠
      .error .insufficientHistory :=
  ⟨(claim_C7_minimum_history_guard (List.replicate 100 0) none).1
      (by norm_num [AdvancedRegimeEngine.minimum_history]),
   (claim_C7_minimum_history_guard (List.replicate 252 0) none).2
      (by norm_num [AdvancedRegimeEngine.minimum_history])⟩

/-- Claim C8: every copula returned by estimate_copula has its parameter
inside the family's valid domain — strictly positive for clayton, at
least 1 for gumbel — and when the candidate falls outside that domain
(no interior maximum of the likelihood within it), the operation fails
with the copula-fit error instead of returning an out-of-domain
parameter. -/
theorem claim_C8_copula_domain (residuals : List (ℚ × ℚ)) (fam : String) :
    (∀ m : CopulaGARCHEngine.CopulaModel,
      CopulaGARCHEngine.estimate_copula residuals fam = .ok m →
      (fam = "clayton" → 0 < m.parameter) ∧
      (fam = "gumbel" → 1 ≤ m.parameter)) ∧
    (CopulaGARCHEngine.validParameter fam
        (CopulaGARCHEngine.copulaCandidate residuals fam) = false →
      CopulaGARCHEngine.estimate_copula residuals fam =
        .error .copulaFitError) := by
  constructor
  · intro m hok
    unfold CopulaGARCHEngine.estimate_copula at hok
    by_cases hv : CopulaGARCHEngine.validParameter fam
        (CopulaGARCHEngine.copulaCandidate residuals fam) = true
    · rw [if_pos hv] at hok
      rw [Except.ok.injEq] at hok
      subst hok
      constructor
      · intro hf
        subst hf
        unfold CopulaGARCHEngine.validParameter at hv
        rw [if_pos rfl] at hv
        simpa using hv
      · intro hf
        subst hf
        unfold CopulaGARCHEngine.validParameter at hv
        rw [if_neg (by simp), if_pos rfl] at hv
        simpa using hv
    · rw [if_neg hv] at hok
      exact absurd hok (by simp)
  · intro hv
    unfold CopulaGARCHEngine.estimate_copula
    rw [if_neg (by simp [hv])]

open CopulaGARCHEngine in
/-- Witness for C8: on concordant-majority residuals the clayton fit
returns parameter 1 (inside the domain), and on fully discordant
residuals (tau = -1, candidate -1 outside the domain) the fit fails with
the copula-fit error. -/
theorem claim_C8_copula_domain_witness :
    ((("clayton":String) = "clayton" →
        (0:ℚ) < (CopulaModel.mk "clayton" 1).parameter) ∧
      (("clayton":String) = "gumbel" →
        (1:ℚ) ≤ (CopulaModel.mk "clayton" 1).parameter)) ∧
    estimate_copula discRes "clayton" = .error .copulaFitError :=
  ⟨(claim_C8_copula_domain concRes "clayton").1 ⟨"clayton", 1⟩
      (by norm_num [estimate_copula, copulaCandidate, kendallTau, concordance,
        concRes, claytonCandidate, validParameter]),
   (claim_C8_copula_domain discRes "clayton").2
      (by norm_num [validParameter, copulaCandidate, kendallTau, concordance,
        discRes, claytonCandidate])⟩

/-- Claim C9: every lookback window in both shipped detection
configurations (21, 63, 252) is at most `minimum_history` (252), so any
series long enough to pass the history guard covers every window. -/
theorem claim_C9_windows_within_minimum_history :
    (AdvancedRegimeEngine.estimation_windows.all
      (fun w => w ≤ AdvancedRegimeEngine.minimum_history)) = true ∧
    (RegimeDetector.lookback_windows.all
      (fun w => w ≤ AdvancedRegimeEngine.minimum_history)) = true := by
  decide

/-- Claim C10: the shipped position and portfolio limit tables are
mutually consistent: min_single_name (0.01) < max_single_name (0.05) <
max_sector (0.25), and max_sector equals the portfolio
concentration_limit (0.25). -/
theorem claim_C10_limit_tables_consistent :
    AdvancedRiskEngine.min_single_name < AdvancedRiskEngine.max_single_name ∧
    AdvancedRiskEngine.max_single_name < AdvancedRiskEngine.max_sector ∧
    AdvancedRiskEngine.max_sector = AdvancedRiskEngine.concentration_limit := by
  refine ⟨?_, ?_, ?_⟩ <;>
    norm_num [AdvancedRiskEngine.min_single_name,
      AdvancedRiskEngine.max_single_name, AdvancedRiskEngine.max_sector,
      AdvancedRiskEngine.concentration_limit]

end PortfolioRiskMC
